import Mathlib

/-!
Verification of the NEXUS RAG orchestration layer (repository
`intent-solutions-io/iam-local-rag`) against its natural-language
specification.

The Python source is shallowly embedded: Python `str` values are modelled
as `List Char` (one entry per code point, so `len` is `List.length`),
Python floats that are only carried around (never computed on in the
verified code paths) are modelled as `ℚ`, `Optional[...]` arguments as
`Option ...`, and functions that may raise as `Except (List Char) ...`.
External effects (the SHA-256 digest from `hashlib`, the filesystem, the
document loaders, the chunker, the vector store and the SQLite connection)
are modelled as explicit parameters or explicit state, following the
source line by line.
-/

/-- Helper: `List Char` stands for a Python `str`. -/
abbrev Str := List Char

/-- Python's substring operator `needle in hay` for strings: scan every
suffix of the haystack for the needle as a prefix. -/
def containsSub (needle : Str) : Str → Bool
  | [] => needle.isEmpty
  | c :: rest => needle.isPrefixOf (c :: rest) || containsSub needle rest

/- ----------------------------------------------------------------
   src/nexus/core/models.py
   ---------------------------------------------------------------- -/

/-- `models.Citation` (pydantic): source, optional page, excerpt,
relevance score, content hash. -/
structure Citation where
  source : Str
  page : Option Int
  excerpt : Str
  relevance_score : ℚ
  content_hash : Str
deriving DecidableEq

/-- `models.QueryResponse` (pydantic): every field is required (none has
a default), so pydantic construction fails when one is absent. -/
structure QueryResponse where
  question : Str
  answer : Str
  citations : List Citation
  workspace_id : Str
  model_used : Str
  provider : Str
  latency_ms : ℚ
  run_id : Str
  timestamp : Str
deriving DecidableEq

/-- `models.IndexRequest`. -/
structure IndexRequest where
  paths : List Str
  workspace_id : Str
  force_reindex : Bool
deriving DecidableEq

/-- `models.DocumentSource`. -/
structure DocumentSource where
  file_path : Str
  file_hash : Str
  file_mtime : ℚ
  indexed_at : Str
deriving DecidableEq

/-- `models.IndexResult`. -/
structure IndexResult where
  workspace_id : Str
  files_processed : Nat
  files_skipped : Nat
  total_chunks : Nat
  processing_time_ms : ℚ
  document_sources : List DocumentSource
deriving DecidableEq

/- ----------------------------------------------------------------
   src/nexus/core/policy.py  (class PolicyRedactor)
   ---------------------------------------------------------------- -/

/-- The two policy settings held by `PolicyRedactor.__init__`
(`hybrid_safe_mode`, `max_snippet_length`). -/
structure PolicyRedactor where
  hybrid_safe_mode : Bool
  max_snippet_length : Nat
deriving DecidableEq

/-- policy.py lines 63-67: build the source attribution
`f"[Source: {citation.source}"`, plus `f", Page {citation.page}"` when
`citation.page` is truthy (not `None` and not `0`), plus `"]"`. -/
def sourceInfoOf (citation : Citation) : Str :=
  let source_info := "[Source: ".data ++ citation.source
  let source_info := match citation.page with
    | some p => if p ≠ 0 then source_info ++ ", Page ".data ++ (toString p).data else source_info
    | none => source_info
  source_info ++ "]".data

/-- policy.py lines 50-70: the `for citation in citations` loop of
`redact_snippets`.  The digest `self._hash_content` (SHA-256 hexdigest)
is an external effect, passed in as `h`.  The loop reads each citation
object and only rebinds the local variable `excerpt`; the first
component returns the citation objects as the loop leaves them, the
second the `safe_snippets` list, the third the `excerpt_hashes` list,
both in iteration order. -/
def redactLoop (h : Str → Str) (pr : PolicyRedactor) : List Citation → List Citation × List Str × List Str
  | [] => ([], [], [])
  | citation :: rest =>
    let excerpt := citation.excerpt
    let excerpt_hash := h excerpt
    let excerpt := if pr.hybrid_safe_mode then
        (if excerpt.length > pr.max_snippet_length then excerpt.take pr.max_snippet_length ++ "...".data else excerpt)
      else excerpt
    let source_info := sourceInfoOf citation
    let safe_snippet := source_info ++ "\n".data ++ excerpt
    let (cs, ss, hs) := redactLoop h pr rest
    (citation :: cs, safe_snippet :: ss, excerpt_hash :: hs)

/-- `PolicyRedactor.redact_snippets` (policy.py lines 34-81): run the
loop, join the snippets with `"\n\n---\n\n"`, then the final length
check with emergency truncation, returning
`(combined_context, excerpt_hashes)`. -/
def redact_snippets (h : Str → Str) (pr : PolicyRedactor) (citations : List Citation) : Str × List Str :=
  let (_, safe_snippets, excerpt_hashes) := redactLoop h pr citations
  let combined_context := List.intercalate "\n\n---\n\n".data safe_snippets
  if pr.hybrid_safe_mode = true ∧ combined_context.length > pr.max_snippet_length * citations.length then
    (combined_context.take (pr.max_snippet_length * citations.length) ++ "\n\n[Context truncated for safety]".data,
     excerpt_hashes)
  else
    (combined_context, excerpt_hashes)

/-- `PolicyRedactor.validate_outbound_payload` (policy.py lines 83-109).
`sentinel` is `Optional[str]`; Python truthiness makes both `None` and
`""` skip the sentinel check. -/
def validate_outbound_payload (pr : PolicyRedactor) (payload : Str) (sentinel : Option Str) : Bool :=
  if pr.hybrid_safe_mode && decide (payload.length > pr.max_snippet_length * 10) then
    false
  else if (match sentinel with | some s => !s.isEmpty | none => false) && containsSub (sentinel.getD []) payload then
    false
  else
    true

/- ----------------------------------------------------------------
   src/nexus/core/router.py  (class ProviderRouter)
   ---------------------------------------------------------------- -/

/-- The parts of `config.Config` the router reads: resolved provider
names (string values of the enums) and the optional credentials.
`Optional[str]` credentials are falsy when `None` or `""`. -/
structure RouterConfig where
  nexus_llm_provider : Str
  nexus_embed_provider : Str
  nexus_mode : Str
  anthropic_api_key : Option Str
  openai_api_key : Option Str
  google_cloud_project : Option Str

/-- Python truthiness of an `Optional[str]`. -/
def optStrTruthy : Option Str → Bool
  | none => false
  | some s => !s.isEmpty

/-- Python `x or y` coalescing for an optional string argument with a
config fallback (`provider_name or Config...`): falsy (`None` or `""`)
falls back. -/
def orDefault (x : Option Str) (dflt : Str) : Str :=
  match x with
  | some s => if s.isEmpty then dflt else s
  | none => dflt

/-- The concrete LLM provider classes the router can instantiate. -/
inductive LLMProviderInst where
  | ollama
  | anthropic
  | openai
  | vertex
deriving DecidableEq

/-- The concrete embedding provider classes. -/
inductive EmbeddingProviderInst where
  | ollama
  | openai
  | vertex
deriving DecidableEq

/-- The message of router.py lines 42-45 (LOCAL-mode rejection for LLM
providers): two adjacent f-string literals. -/
def llmLocalModeError (provider_name : Str) : Str :=
  "LOCAL mode requires Ollama provider, got: ".data ++ provider_name
    ++ ". Set NEXUS_LLM_PROVIDER=ollama or change NEXUS_MODE.".data

/-- The message of router.py lines 106-109 (LOCAL-mode rejection for
embedding providers). -/
def embedLocalModeError (provider_name : Str) : Str :=
  "LOCAL mode requires Ollama embeddings, got: ".data ++ provider_name
    ++ ". Set NEXUS_EMBED_PROVIDER=ollama or change NEXUS_MODE.".data

/-- `ProviderRouter.get_llm_provider` (router.py lines 19-79).
`NexusMode` and `LLMProviderEnum` are str-enums, so the comparisons are
against the literal strings. `raise ValueError` is `Except.error`. -/
def get_llm_provider (cfg : RouterConfig) (provider_name : Option Str) (mode : Option Str) : Except Str LLMProviderInst :=
  let provider_name := orDefault provider_name cfg.nexus_llm_provider
  let mode := orDefault mode cfg.nexus_mode
  if mode = "local".data ∧ provider_name ≠ "ollama".data then
    Except.error (llmLocalModeError provider_name)
  else if provider_name = "ollama".data then
    Except.ok LLMProviderInst.ollama
  else if provider_name = "anthropic".data then
    if !optStrTruthy cfg.anthropic_api_key then
      Except.error ("ANTHROPIC_API_KEY required for Anthropic provider. Set it in .env or use NEXUS_LLM_PROVIDER=ollama for local-only.".data)
    else Except.ok LLMProviderInst.anthropic
  else if provider_name = "openai".data then
    if !optStrTruthy cfg.openai_api_key then
      Except.error ("OPENAI_API_KEY required for OpenAI provider. Set it in .env or use NEXUS_LLM_PROVIDER=ollama for local-only.".data)
    else Except.ok LLMProviderInst.openai
  else if provider_name = "vertex".data then
    if !optStrTruthy cfg.google_cloud_project then
      Except.error ("GOOGLE_CLOUD_PROJECT required for Vertex provider. Set it in .env or use NEXUS_LLM_PROVIDER=ollama for local-only.".data)
    else Except.ok LLMProviderInst.vertex
  else
    Except.error ("Unknown LLM provider: ".data ++ provider_name)

/-- `ProviderRouter.get_embedding_provider` (router.py lines 81-135). -/
def get_embedding_provider (cfg : RouterConfig) (provider_name : Option Str) (mode : Option Str) : Except Str EmbeddingProviderInst :=
  let provider_name := orDefault provider_name cfg.nexus_embed_provider
  let mode := orDefault mode cfg.nexus_mode
  if mode = "local".data ∧ provider_name ≠ "ollama".data then
    Except.error (embedLocalModeError provider_name)
  else if provider_name = "ollama".data then
    Except.ok EmbeddingProviderInst.ollama
  else if provider_name = "openai".data then
    if !optStrTruthy cfg.openai_api_key then
      Except.error ("OPENAI_API_KEY required for OpenAI embeddings. Set it in .env or use NEXUS_EMBED_PROVIDER=ollama.".data)
    else Except.ok EmbeddingProviderInst.openai
  else if provider_name = "vertex".data then
    if !optStrTruthy cfg.google_cloud_project then
      Except.error ("GOOGLE_CLOUD_PROJECT required for Vertex embeddings. Set it in .env or use NEXUS_EMBED_PROVIDER=ollama.".data)
    else Except.ok EmbeddingProviderInst.vertex
  else
    Except.error ("Unknown Embedding provider: ".data ++ provider_name)

/- ----------------------------------------------------------------
   src/nexus/core/ledger.py  (class RunLedger)
   ---------------------------------------------------------------- -/

/-- A row of the `query_runs` table (ledger.py lines 57-72).  The JSON
serialisation of `excerpt_hashes` is length- and order-preserving, so
the stored string is modelled as the list itself. -/
structure QueryRunRow where
  run_id : Str
  workspace_id : Str
  timestamp : Str
  question : Str
  answer : Str
  max_results : Nat
  model_used : Str
  provider : Str
  latency_ms : ℚ
  citation_count : Nat
  excerpt_hashes : List Str
deriving DecidableEq

/-- A row of the `index_runs` table (ledger.py lines 41-54). -/
structure IndexRunRow where
  run_id : Str
  workspace_id : Str
  timestamp : Str
  files_processed : Nat
  files_skipped : Nat
  total_chunks : Nat
  processing_time_ms : ℚ
  document_sources : List DocumentSource
  embed_provider : Str
deriving DecidableEq

/-- The two tables of the SQLite ledger database. -/
structure LedgerState where
  index_runs : List IndexRunRow
  query_runs : List QueryRunRow
deriving DecidableEq

/-- `RunLedger.record_query_run` (ledger.py lines 140-183): serialise
`excerpt_hashes or []`, INSERT one row, commit, and return
`response.run_id`.  Both `max_results` and `citation_count` columns are
written from `len(response.citations)`. -/
def record_query_run (st : LedgerState) (response : QueryResponse) (excerpt_hashes : Option (List Str)) : LedgerState × Str :=
  let hashes_json := excerpt_hashes.getD []
  let row : QueryRunRow :=
    { run_id := response.run_id
      workspace_id := response.workspace_id
      timestamp := response.timestamp
      question := response.question.take 500
      answer := response.answer.take 2000
      max_results := response.citations.length
      model_used := response.model_used
      provider := response.provider
      latency_ms := response.latency_ms
      citation_count := response.citations.length
      excerpt_hashes := hashes_json }
  ({ st with query_runs := st.query_runs ++ [row] }, response.run_id)

/-- `RunLedger.record_index_run` (ledger.py lines 87-138): mint a run
id (clock-dependent, passed in as `run_id`), INSERT one row, commit. -/
def record_index_run (st : LedgerState) (result : IndexResult) (embed_provider : Str) (run_id : Str) (now_iso : Str) : LedgerState × Str :=
  let row : IndexRunRow :=
    { run_id := run_id
      workspace_id := result.workspace_id
      timestamp := now_iso
      files_processed := result.files_processed
      files_skipped := result.files_skipped
      total_chunks := result.total_chunks
      processing_time_ms := result.processing_time_ms
      document_sources := result.document_sources
      embed_provider := embed_provider }
  ({ st with index_runs := st.index_runs ++ [row] }, run_id)

/- ----------------------------------------------------------------
   src/nexus/core/rag_pipeline.py  (class RAGPipeline)
   ---------------------------------------------------------------- -/

/-- The external effects `RAGPipeline.index_documents` performs per
path: `os.path.exists`, `os.path.getmtime`, the MD5 content digest of
`_hash_file`, and the loader's `load()` (PyPDFLoader for `.pdf`,
TextLoader for `.txt`/`.md`; both just produce a document list). -/
structure FileSys where
  pathExists : Str → Bool
  getmtime : Str → ℚ
  fileHash : Str → Str
  load : Str → List Str

/-- rag_pipeline.py lines 101-122: the `for file_path in request.paths`
loop.  A path that does not exist, or whose name ends in none of
`.pdf`, `.txt`, `.md`, is passed over by `continue`; a loaded path
contributes its documents and one `DocumentSource` record. -/
def indexLoop (fs : FileSys) (now : Str) : List Str → List Str × List DocumentSource
  | [] => ([], [])
  | file_path :: rest =>
    if fs.pathExists file_path = false then
      indexLoop fs now rest
    else if List.isSuffixOf ".pdf".data file_path
        || List.isSuffixOf ".txt".data file_path || List.isSuffixOf ".md".data file_path then
      let docs := fs.load file_path
      let src : DocumentSource :=
        { file_path := file_path
          file_hash := fs.fileHash file_path
          file_mtime := fs.getmtime file_path
          indexed_at := now }
      let (ds, ss) := indexLoop fs now rest
      (docs ++ ds, src :: ss)
    else
      indexLoop fs now rest

/-- Whether the loop loads a path: it exists and carries a supported
extension. -/
def pathIsLoadable (fs : FileSys) (file_path : Str) : Bool :=
  fs.pathExists file_path
    && (List.isSuffixOf ".pdf".data file_path
        || List.isSuffixOf ".txt".data file_path || List.isSuffixOf ".md".data file_path)

/-- `RAGPipeline.index_documents` (rag_pipeline.py lines 82-151): load,
split with the external chunker (`splitter`), upsert into the vector
store (no observable effect on the result), and build the
`IndexResult`.  The returned counts are literally
`files_processed=len(request.paths)` and `files_skipped=0`
(rag_pipeline.py lines 146-147); `elapsed_ms` stands for the wall-clock
measurement. -/
def index_documents (fs : FileSys) (splitter : List Str → List Str) (now : Str) (elapsed_ms : ℚ)
    (workspace_id : Str) (request : IndexRequest) : IndexResult :=
  let (documents, sources) := indexLoop fs now request.paths
  let splits := splitter documents
  { workspace_id := workspace_id
    files_processed := request.paths.length
    files_skipped := 0
    total_chunks := splits.length
    processing_time_ms := elapsed_ms
    document_sources := sources }

/-- The pydantic constructor call `QueryResponse(...)`: one `Option`
slot per keyword argument; a missing required field is a
`ValidationError` (`Except.error`). -/
def mkQueryResponse (question : Option Str) (answer : Option Str) (citations : Option (List Citation))
    (workspace_id : Option Str) (model_used : Option Str) (provider : Option Str)
    (latency_ms : Option ℚ) (run_id : Option Str) (timestamp : Option Str) : Except Str QueryResponse :=
  match question, answer, citations, workspace_id, model_used, provider, latency_ms, run_id, timestamp with
  | some q, some a, some cs, some w, some m, some p, some l, some r, some t =>
    Except.ok { question := q, answer := a, citations := cs, workspace_id := w, model_used := m,
                provider := p, latency_ms := l, run_id := r, timestamp := t }
  | none, _, _, _, _, _, _, _, _ =>
    Except.error "1 validation error for QueryResponse: question Field required".data
  | _, _, _, _, _, _, _, _, _ =>
    Except.error "validation error for QueryResponse: Field required".data

/-- The `return QueryResponse(...)` call of `RAGPipeline.query`
(rag_pipeline.py lines 219-228): the keyword arguments actually passed
are `answer`, `citations`, `workspace_id`, `model_used`, `provider`,
`latency_ms`, `run_id` and `timestamp` — no `question=` argument. -/
def rag_query_response (answer : Str) (citations : List Citation) (workspace_id : Str)
    (model_used : Str) (provider : Str) (latency_ms : ℚ) (run_id : Str) (timestamp : Str) :
    Except Str QueryResponse :=
  mkQueryResponse none (some answer) (some citations) (some workspace_id) (some model_used)
    (some provider) (some latency_ms) (some run_id) (some timestamp)

/- ----------------------------------------------------------------
   src/nexus/api/server.py  (FastAPI endpoints)
   ---------------------------------------------------------------- -/

/-- The process-wide mutable state the server endpoints can reach: the
global `_ledger` (its SQLite tables) and the global `_query_count`. -/
structure ServerState where
  ledger : LedgerState
  query_count : Nat
deriving DecidableEq

/-- An HTTP reply: 200 with a body, or 500 with the exception text as
detail (`HTTPException(status_code=500, detail=str(e))`). -/
inductive HttpResult (α : Type) where
  | ok200 (body : α)
  | err500 (detail : Str)
deriving DecidableEq

/-- `POST /query` handler `query_knowledge_base` (server.py lines
68-87): run `pipeline.query(request)` (outcome passed in, since it
depends on the vector store and the LLM), increment `_query_count` on
success, and return.  The handler contains no ledger call. -/
def query_knowledge_base (st : ServerState) (pipelineOutcome : Except Str QueryResponse) :
    HttpResult QueryResponse × ServerState :=
  match pipelineOutcome with
  | Except.ok response => (HttpResult.ok200 response, { st with query_count := st.query_count + 1 })
  | Except.error e => (HttpResult.err500 e, st)

/-- `POST /index` handler `index_documents_endpoint` (server.py lines
90-106): run `pipeline.index_documents(request)` and return.  The
handler contains no ledger call. -/
def index_documents_endpoint (st : ServerState) (pipelineOutcome : Except Str IndexResult) :
    HttpResult IndexResult × ServerState :=
  match pipelineOutcome with
  | Except.ok result => (HttpResult.ok200 result, st)
  | Except.error e => (HttpResult.err500 e, st)

/- ----------------------------------------------------------------
   Helper lemmas
   ---------------------------------------------------------------- -/

/-- The excerpt part of a per-citation segment: the truncation step of
policy.py lines 58-61 in isolation. -/
def truncOf (pr : PolicyRedactor) (e : Str) : Str :=
  if pr.hybrid_safe_mode then
    (if e.length > pr.max_snippet_length then e.take pr.max_snippet_length ++ "...".data else e)
  else e

/-- Closed form of the redaction loop: citations pass through
untouched, segments and hashes are pointwise images of the input. -/
theorem redactLoop_eq (h : Str → Str) (pr : PolicyRedactor) (cs : List Citation) :
    redactLoop h pr cs =
      (cs, cs.map (fun c => sourceInfoOf c ++ "\n".data ++ truncOf pr c.excerpt),
       cs.map (fun c => h c.excerpt)) := by
  induction cs with
  | nil => rfl
  | cons c rest ih => simp [redactLoop, truncOf, ih]

/-- The hash component of `redact_snippets` is the pointwise digest of
the input excerpts, whatever the policy settings. -/
theorem redact_snippets_snd (h : Str → Str) (pr : PolicyRedactor) (cs : List Citation) :
    (redact_snippets h pr cs).2 = cs.map (fun c => h c.excerpt) := by
  unfold redact_snippets
  rw [redactLoop_eq]
  split
  rename_i cs2 ss2 hs2 heq
  cases heq
  dsimp only
  split
  · rfl
  · rfl

/- ----------------------------------------------------------------
   Claim theorems
   ---------------------------------------------------------------- -/

/-- C1. For every citation list `C`, `redact_snippets(C)` returns a
pair whose hash component has one digest per citation: it equals
`C.map (h ∘ excerpt)`, so its length is `len(C)`, the entry at every
index `i` is the digest of the full pre-truncation excerpt of `C[i]`
(same order as the input), and it is independent of the policy
settings, so truncation never changes it. -/
theorem redact_snippets_hash_audit (h : Str → Str) (pr : PolicyRedactor) (cs : List Citation) :
    (redact_snippets h pr cs).2 = cs.map (fun c => h c.excerpt)
    ∧ (redact_snippets h pr cs).2.length = cs.length
    ∧ (∀ i : Nat, (redact_snippets h pr cs).2[i]? = (cs[i]?).map (fun c => h c.excerpt))
    ∧ (∀ pr' : PolicyRedactor, (redact_snippets h pr' cs).2 = (redact_snippets h pr cs).2) := by
  refine ⟨redact_snippets_snd h pr cs, ?_, ?_, ?_⟩
  · rw [redact_snippets_snd]; exact List.length_map ..
  · intro i
    rw [redact_snippets_snd]
    exact List.getElem?_map ..
  · intro pr'
    rw [redact_snippets_snd, redact_snippets_snd]

/-- C10. On the empty citation list `redact_snippets` returns exactly
the empty context and the empty hash list; in particular the
emergency-truncation marker is not appended even though the safe-mode
bound `max_snippet_length * 0` is `0`. -/
theorem redact_snippets_empty (h : Str → Str) (pr : PolicyRedactor) :
    redact_snippets h pr [] = (("".data : Str), ([] : List Str)) := by
  unfold redact_snippets
  simp [redactLoop, List.intercalate]

/-- C9. `redact_snippets` does not modify its input: the citation
objects coming out of the redaction loop are exactly the input ones —
the loop only rebinds its local `excerpt` variable — so every field
(source, page, excerpt, relevance_score, content_hash) of every
citation is unchanged; truncation and attribution affect only the
returned context string. -/
theorem redact_snippets_frame (h : Str → Str) (pr : PolicyRedactor) (cs : List Citation) :
    (redactLoop h pr cs).1 = cs
    ∧ (redactLoop h pr cs).1.map Citation.source = cs.map Citation.source
    ∧ (redactLoop h pr cs).1.map Citation.page = cs.map Citation.page
    ∧ (redactLoop h pr cs).1.map Citation.excerpt = cs.map Citation.excerpt
    ∧ (redactLoop h pr cs).1.map Citation.relevance_score = cs.map Citation.relevance_score
    ∧ (redactLoop h pr cs).1.map Citation.content_hash = cs.map Citation.content_hash := by
  rw [redactLoop_eq]
  exact ⟨rfl, rfl, rfl, rfl, rfl, rfl⟩

/-- C2. With safe mode enabled and `max_snippet_length = L`, every
citation whose full excerpt exceeds `L` characters has its excerpt
truncated to exactly `L` characters with the marker `"..."` appended;
and every per-citation segment of the context carries at most `L`
characters of the original excerpt (a prefix `take k`, `k ≤ L`) plus a
marker of at most `len("...") = 3` characters, hence at most
`L + len("...")` characters of original excerpt text. -/
theorem redact_snippets_safe_mode_truncation (h : Str → Str) (pr : PolicyRedactor)
    (cs : List Citation) (c : Citation)
    (hsafe : pr.hybrid_safe_mode = true) (hmem : c ∈ cs) :
    ∃ seg ∈ (redactLoop h pr cs).2.1,
      (c.excerpt.length > pr.max_snippet_length →
        seg = sourceInfoOf c ++ "\n".data ++ (c.excerpt.take pr.max_snippet_length ++ "...".data)
        ∧ (c.excerpt.take pr.max_snippet_length).length = pr.max_snippet_length)
      ∧ ∃ k m, k ≤ pr.max_snippet_length ∧ m.length ≤ 3
          ∧ seg = sourceInfoOf c ++ "\n".data ++ (c.excerpt.take k ++ m) := by
  refine ⟨sourceInfoOf c ++ "\n".data ++ truncOf pr c.excerpt, ?_, ?_, ?_⟩
  · rw [redactLoop_eq]
    exact List.mem_map_of_mem _ hmem
  · intro hlong
    rw [truncOf, if_pos hsafe, if_pos hlong]
    refine ⟨rfl, ?_⟩
    rw [List.length_take]
    exact Nat.min_eq_left (Nat.le_of_lt hlong)
  · by_cases hlong : c.excerpt.length > pr.max_snippet_length
    · refine ⟨pr.max_snippet_length, "...".data, Nat.le_refl _, by decide, ?_⟩
      rw [truncOf, if_pos hsafe, if_pos hlong]
    · refine ⟨c.excerpt.length, [], Nat.le_of_not_lt hlong, by decide, ?_⟩
      rw [truncOf, if_pos hsafe, if_neg hlong, List.take_length, List.append_nil]

/-- A citation with an 8-character excerpt, used to instantiate the
truncation and audit theorems. -/
def sampleCitation : Citation :=
  { source := "doc.txt".data, page := none, excerpt := "abcdefgh".data,
    relevance_score := 1, content_hash := "x".data }

/-- A safe-mode policy with `max_snippet_length = 5`. -/
def samplePolicy : PolicyRedactor := { hybrid_safe_mode := true, max_snippet_length := 5 }

/-- Witness for C2 at safe mode, `L = 5`, one citation with an
8-character excerpt. -/
theorem redact_snippets_safe_mode_truncation_witness :
    ∃ seg ∈ (redactLoop (fun s => s) samplePolicy [sampleCitation]).2.1,
      (sampleCitation.excerpt.length > samplePolicy.max_snippet_length →
        seg = sourceInfoOf sampleCitation ++ "\n".data
            ++ (sampleCitation.excerpt.take samplePolicy.max_snippet_length ++ "...".data)
        ∧ (sampleCitation.excerpt.take samplePolicy.max_snippet_length).length
            = samplePolicy.max_snippet_length)
      ∧ ∃ k m, k ≤ samplePolicy.max_snippet_length ∧ m.length ≤ 3
          ∧ seg = sourceInfoOf sampleCitation ++ "\n".data ++ (sampleCitation.excerpt.take k ++ m) :=
  redact_snippets_safe_mode_truncation (fun s => s) samplePolicy [sampleCitation] sampleCitation
    rfl (List.mem_singleton.mpr rfl)

/-- `List.isPrefixOf` decides the existence of a completing suffix. -/
theorem isPrefixOf_eq_true_iff (l m : Str) : l.isPrefixOf m = true ↔ ∃ t, m = l ++ t := by
  induction l generalizing m with
  | nil => simp [List.isPrefixOf]
  | cons a as ih =>
    cases m with
    | nil => simp [List.isPrefixOf]
    | cons b bs =>
      simp only [List.isPrefixOf, Bool.and_eq_true, beq_iff_eq, ih, List.cons_append,
        List.cons.injEq]
      constructor
      · rintro ⟨hab, t, ht⟩
        exact ⟨t, hab.symm, ht⟩
      · rintro ⟨t, hab, ht⟩
        exact ⟨hab.symm, t, ht⟩

/-- `containsSub` decides Python's substring relation. -/
theorem containsSub_iff (needle hay : Str) :
    containsSub needle hay = true ↔ ∃ a b, hay = a ++ needle ++ b := by
  induction hay with
  | nil =>
    simp only [containsSub, List.isEmpty_iff]
    constructor
    · intro h
      exact ⟨[], [], by simp [h]⟩
    · rintro ⟨a, b, hab⟩
      rcases List.append_eq_nil.mp (List.append_eq_nil.mp hab.symm).1 with ⟨-, hn⟩
      exact hn
  | cons c rest ih =>
    simp only [containsSub, Bool.or_eq_true, isPrefixOf_eq_true_iff, ih]
    constructor
    · rintro (⟨t, ht⟩ | ⟨a, b, hab⟩)
      · exact ⟨[], t, by simp [ht]⟩
      · exact ⟨c :: a, b, by simp [hab]⟩
    · rintro ⟨a, b, hab⟩
      cases a with
      | nil =>
        left
        exact ⟨b, by simpa using hab⟩
      | cons c2 a2 =>
        right
        rcases List.cons.injEq .. ▸ hab with ⟨-, hrest⟩
        exact ⟨a2, b, by simpa using hrest⟩

/-- `!l.isEmpty` decides non-emptiness. -/
theorem bnot_isEmpty_iff (l : Str) : (!l.isEmpty) = true ↔ l ≠ [] := by
  cases l <;> simp

/-- C6. `validate_outbound_payload(payload, sentinel)` returns false
exactly when (a) safe mode is on and `len(payload) >
max_snippet_length * 10`, or (b) the sentinel is a non-empty string
occurring as a substring of the payload; otherwise it returns true.
The iff shows condition (a) is not consulted when safe mode is off. -/
theorem validate_outbound_payload_spec (pr : PolicyRedactor) (payload : Str) (sentinel : Option Str) :
    validate_outbound_payload pr payload sentinel = false ↔
      (pr.hybrid_safe_mode = true ∧ payload.length > pr.max_snippet_length * 10)
      ∨ (∃ s, sentinel = some s ∧ s ≠ [] ∧ ∃ a b, payload = a ++ s ++ b) := by
  unfold validate_outbound_payload
  by_cases hlen : pr.hybrid_safe_mode && decide (payload.length > pr.max_snippet_length * 10)
  · rw [if_pos hlen]
    simp only [Bool.and_eq_true, decide_eq_true_iff] at hlen
    simp [hlen]
  · rw [if_neg hlen]
    simp only [Bool.and_eq_true, decide_eq_true_iff, not_and] at hlen
    cases sentinel with
    | none =>
      simp only [Bool.false_and, if_neg (by simp : ¬(false = true))]
      constructor
      · intro h; exact absurd h (by simp)
      · rintro (⟨hsm, hgt⟩ | ⟨s, hs, -⟩)
        · exact absurd hgt (hlen hsm)
        · exact absurd hs (by simp)
    | some s =>
      by_cases hsen : (!s.isEmpty) && containsSub s payload
      · rw [if_pos (by simpa using hsen)]
        simp only [Bool.and_eq_true, bnot_isEmpty_iff, containsSub_iff] at hsen
        simp only [true_iff]
        right
        exact ⟨s, rfl, hsen.1, hsen.2⟩
      · rw [if_neg (by simpa using hsen)]
        simp only [Bool.and_eq_true, bnot_isEmpty_iff, containsSub_iff, not_and] at hsen
        constructor
        · intro h; exact absurd h (by simp)
        · rintro (⟨hsm, hgt⟩ | ⟨s2, hs2, hne2, hsub2⟩)
          · exact absurd hgt (hlen hsm)
          · rcases Option.some.injEq .. ▸ hs2 with rfl
            exact absurd hsub2 (hsen hne2)

/-- C3 (refuted). The `POST /index` and `POST /query` handlers of
server.py return their 200 response with the ledger state unchanged:
neither handler calls `record_index_run` or `record_query_run`, so no
query-run or index-run ledger row is written before (or after) the
HTTP response — contradicting write-then-respond. -/
theorem endpoints_answer_200_without_ledger_write (st : ServerState) (result : IndexResult)
    (response : QueryResponse) :
    (index_documents_endpoint st (Except.ok result)).1 = HttpResult.ok200 result
    ∧ (index_documents_endpoint st (Except.ok result)).2.ledger = st.ledger
    ∧ (query_knowledge_base st (Except.ok response)).1 = HttpResult.ok200 response
    ∧ (query_knowledge_base st (Except.ok response)).2.ledger = st.ledger :=
  ⟨rfl, rfl, rfl, rfl⟩

/-- C4 (refuted). The `QueryResponse(...)` call at the end of
`RAGPipeline.query` passes no `question=` argument, and the field has
no default, so the pydantic construction always fails with a
validation error: no successful query response is produced, and in
particular none echoing the request's question. -/
theorem rag_query_response_missing_question (answer : Str) (citations : List Citation)
    (workspace_id model_used provider : Str) (latency_ms : ℚ) (run_id timestamp : Str) :
    rag_query_response answer citations workspace_id model_used provider latency_ms run_id timestamp
      = Except.error "1 validation error for QueryResponse: question Field required".data := rfl

/-- Characterisation of the ingestion loop's document sources: one
record per loadable path, in order. -/
theorem indexLoop_sources (fs : FileSys) (now : Str) (ps : List Str) :
    (indexLoop fs now ps).2 = (ps.filter (fun p => pathIsLoadable fs p)).map
      (fun p => ({ file_path := p, file_hash := fs.fileHash p,
                   file_mtime := fs.getmtime p, indexed_at := now } : DocumentSource)) := by
  induction ps with
  | nil => rfl
  | cons p rest ih =>
    cases hex : fs.pathExists p with
    | false => simp [indexLoop, pathIsLoadable, hex, ih]
    | true =>
      by_cases hsuf : (List.isSuffixOf ".pdf".data p
          || List.isSuffixOf ".txt".data p || List.isSuffixOf ".md".data p) = true
      · simp [indexLoop, pathIsLoadable, hex, hsuf, ih]
      · simp [indexLoop, pathIsLoadable, hex, hsuf, ih]

/-- C5 (amended). `index_documents` never errors on missing or
unsupported paths, but reports `files_processed` as the total number of
requested paths — skipped paths included — and `files_skipped` as `0`;
only loadable paths contribute a document-source record. -/
theorem index_documents_counts (fs : FileSys) (splitter : List Str → List Str) (now : Str)
    (elapsed_ms : ℚ) (workspace_id : Str) (request : IndexRequest) :
    (index_documents fs splitter now elapsed_ms workspace_id request).files_processed
        = request.paths.length
    ∧ (index_documents fs splitter now elapsed_ms workspace_id request).files_skipped = 0
    ∧ (index_documents fs splitter now elapsed_ms workspace_id request).document_sources.length
        = (request.paths.filter (fun p => pathIsLoadable fs p)).length := by
  refine ⟨rfl, rfl, ?_⟩
  show (indexLoop fs now request.paths).2.length = _
  rw [indexLoop_sources]
  exact List.length_map ..

/-- A filesystem on which no path exists. -/
def fsNone : FileSys :=
  { pathExists := fun _ => false, getmtime := fun _ => 0,
    fileHash := fun _ => [], load := fun _ => [] }

/-- The result of indexing the single missing path `missing.txt` on
that filesystem. -/
def missingPathIndexResult : IndexResult :=
  index_documents fsNone (fun ds => ds) [] 0 "ws".data
    { paths := ["missing.txt".data], workspace_id := "ws".data, force_reindex := false }

/-- Counterexample to C5 as stated: one requested path that does not
exist is skipped, yet the result reports `files_skipped = 0` (the claim
demands `1`) and `files_processed = 1` (the claim demands `0`). -/
theorem index_documents_counts_counterexample :
    missingPathIndexResult.files_skipped = 0
    ∧ missingPathIndexResult.files_processed = 1
    ∧ pathIsLoadable fsNone "missing.txt".data = false
    ∧ ¬(missingPathIndexResult.files_skipped = 1 ∧ missingPathIndexResult.files_processed = 0) := by
  refine ⟨rfl, rfl, rfl, ?_⟩
  rintro ⟨h1, -⟩
  exact absurd h1 (by decide)

/-- C7 (amended). In `local` mode, every non-empty provider name other
than `ollama` is rejected by both `get_llm_provider` and
`get_embedding_provider` with an error citing the requested name and
the remediation, while `ollama` itself is accepted; an empty name is
treated by `provider_name or Config...` as absent and falls back to
the configured default. -/
theorem router_local_mode_rejects (cfg : RouterConfig) (p : Str)
    (hne : p ≠ []) (hno : p ≠ "ollama".data) :
    get_llm_provider cfg (some p) (some "local".data) = Except.error (llmLocalModeError p)
    ∧ get_embedding_provider cfg (some p) (some "local".data) = Except.error (embedLocalModeError p)
    ∧ (∃ a b, llmLocalModeError p = a ++ p ++ b)
    ∧ (∃ a b, llmLocalModeError p
        = a ++ "Set NEXUS_LLM_PROVIDER=ollama or change NEXUS_MODE.".data ++ b)
    ∧ (∃ a b, embedLocalModeError p = a ++ p ++ b)
    ∧ (∃ a b, embedLocalModeError p
        = a ++ "Set NEXUS_EMBED_PROVIDER=ollama or change NEXUS_MODE.".data ++ b)
    ∧ get_llm_provider cfg (some "ollama".data) (some "local".data)
        = Except.ok LLMProviderInst.ollama
    ∧ get_embedding_provider cfg (some "ollama".data) (some "local".data)
        = Except.ok EmbeddingProviderInst.ollama := by
  have hpe : p.isEmpty = false := by
    cases p with
    | nil => exact absurd rfl hne
    | cons a as => rfl
  refine ⟨?_, ?_, ?_, ?_, ?_, ?_, ?_, ?_⟩
  · simp +decide [get_llm_provider, orDefault, hpe, hno]
  · simp +decide [get_embedding_provider, orDefault, hpe, hno]
  · exact ⟨"LOCAL mode requires Ollama provider, got: ".data,
      ". Set NEXUS_LLM_PROVIDER=ollama or change NEXUS_MODE.".data, rfl⟩
  · refine ⟨"LOCAL mode requires Ollama provider, got: ".data ++ p ++ ". ".data, [], ?_⟩
    have hsplit : (". Set NEXUS_LLM_PROVIDER=ollama or change NEXUS_MODE.".data : Str)
        = ". ".data ++ "Set NEXUS_LLM_PROVIDER=ollama or change NEXUS_MODE.".data := by decide
    rw [llmLocalModeError, hsplit]
    simp
  · exact ⟨"LOCAL mode requires Ollama embeddings, got: ".data,
      ". Set NEXUS_EMBED_PROVIDER=ollama or change NEXUS_MODE.".data, rfl⟩
  · refine ⟨"LOCAL mode requires Ollama embeddings, got: ".data ++ p ++ ". ".data, [], ?_⟩
    have hsplit : (". Set NEXUS_EMBED_PROVIDER=ollama or change NEXUS_MODE.".data : Str)
        = ". ".data ++ "Set NEXUS_EMBED_PROVIDER=ollama or change NEXUS_MODE.".data := by decide
    rw [embedLocalModeError, hsplit]
    simp
  · rfl
  · rfl

/-- A config whose resolved defaults are the shipped ones: both
providers `ollama`, mode `hybrid`, no credentials. -/
def cfgDefaults : RouterConfig :=
  { nexus_llm_provider := "ollama".data, nexus_embed_provider := "ollama".data,
    nexus_mode := "hybrid".data, anthropic_api_key := none,
    openai_api_key := none, google_cloud_project := none }

/-- Witness for C7 (amended) at `p = "anthropic"`. -/
theorem router_local_mode_rejects_witness :
    (("anthropic".data : Str) ≠ [] ∧ ("anthropic".data : Str) ≠ "ollama".data)
    ∧ (get_llm_provider cfgDefaults (some "anthropic".data) (some "local".data)
          = Except.error (llmLocalModeError "anthropic".data)
      ∧ get_embedding_provider cfgDefaults (some "anthropic".data) (some "local".data)
          = Except.error (embedLocalModeError "anthropic".data)
      ∧ (∃ a b, llmLocalModeError "anthropic".data = a ++ "anthropic".data ++ b)
      ∧ (∃ a b, llmLocalModeError "anthropic".data
          = a ++ "Set NEXUS_LLM_PROVIDER=ollama or change NEXUS_MODE.".data ++ b)
      ∧ (∃ a b, embedLocalModeError "anthropic".data = a ++ "anthropic".data ++ b)
      ∧ (∃ a b, embedLocalModeError "anthropic".data
          = a ++ "Set NEXUS_EMBED_PROVIDER=ollama or change NEXUS_MODE.".data ++ b)
      ∧ get_llm_provider cfgDefaults (some "ollama".data) (some "local".data)
          = Except.ok LLMProviderInst.ollama
      ∧ get_embedding_provider cfgDefaults (some "ollama".data) (some "local".data)
          = Except.ok EmbeddingProviderInst.ollama) :=
  ⟨⟨by decide, by decide⟩,
   router_local_mode_rejects cfgDefaults "anthropic".data (by decide) (by decide)⟩

/-- Counterexample to C7 as stated: the empty string is a provider
name other than `"ollama"`, yet in local mode it is not rejected —
`provider_name or Config...` replaces it by the configured default
(`ollama` in the shipped config), and the request succeeds. -/
theorem router_local_mode_empty_name_counterexample :
    get_llm_provider cfgDefaults (some []) (some "local".data) = Except.ok LLMProviderInst.ollama
    ∧ get_embedding_provider cfgDefaults (some []) (some "local".data)
        = Except.ok EmbeddingProviderInst.ollama
    ∧ ([] : Str) ≠ "ollama".data :=
  ⟨rfl, rfl, by decide⟩

/-- C8 (amended). `record_query_run` appends exactly one row whose
`citation_count` column is `len(response.citations)` and whose stored
hash list is the passed list (or `[]` when absent); when the passed
list's length equals `len(response.citations)` — as for hashes
produced by `redact_snippets` on the response's citations — the row's
citation count equals the stored list's length. -/
theorem record_query_run_citation_count (st : LedgerState) (response : QueryResponse)
    (excerpt_hashes : Option (List Str))
    (hlen : (excerpt_hashes.getD []).length = response.citations.length) :
    ∃ row : QueryRunRow,
      (record_query_run st response excerpt_hashes).1.query_runs = st.query_runs ++ [row]
      ∧ row.citation_count = response.citations.length
      ∧ row.excerpt_hashes = excerpt_hashes.getD []
      ∧ row.citation_count = row.excerpt_hashes.length := by
  refine ⟨_, rfl, rfl, rfl, ?_⟩
  exact hlen.symm

/-- The ledger before any run is recorded. -/
def emptyLedger : LedgerState := { index_runs := [], query_runs := [] }

/-- A response carrying exactly one citation. -/
def sampleQueryResponse : QueryResponse :=
  { question := "q".data, answer := "a".data, citations := [sampleCitation],
    workspace_id := "w".data, model_used := "m".data, provider := "p".data,
    latency_ms := 1, run_id := "r".data, timestamp := "t".data }

/-- Witness for C8 (amended): one citation, one passed hash. -/
theorem record_query_run_citation_count_witness :
    ((some [("h1".data : Str)]).getD []).length = sampleQueryResponse.citations.length
    ∧ ∃ row : QueryRunRow,
        (record_query_run emptyLedger sampleQueryResponse (some ["h1".data])).1.query_runs
          = emptyLedger.query_runs ++ [row]
        ∧ row.citation_count = sampleQueryResponse.citations.length
        ∧ row.excerpt_hashes = (some [("h1".data : Str)]).getD []
        ∧ row.citation_count = row.excerpt_hashes.length :=
  ⟨rfl, record_query_run_citation_count emptyLedger sampleQueryResponse (some ["h1".data]) rfl⟩

/-- Counterexample to C8 as stated: passing two excerpt hashes with a
one-citation response (the very input of the repository's own
`test_record_query_run`) stores a row whose citation count is 1 while
the stored hash list has length 2. -/
theorem record_query_run_count_mismatch :
    ((record_query_run emptyLedger sampleQueryResponse (some ["h1".data, "h2".data])).1.query_runs.map
        (fun row => (row.citation_count, row.excerpt_hashes.length))) = [(1, 2)]
    ∧ (1 : Nat) ≠ 2 :=
  ⟨rfl, by decide⟩
